import Mathlib

/-!
Verification of the Arma3-Utils repository (`unusedmods.py` and `modpacksize.py`).

The two scripts share three core functions, embedded here:
* `_get_mod_names`  → `getModNames`   (HTML extraction; a document is the sequence
  of `td` cells in document order, each carrying its parent's `data-type`
  attribute, its own `data-type` attribute — both optional, a missing attribute
  raising `KeyError` on access in Python — and its text);
* `_get_mod_sizes`  → `getModSizes` / `resolveModSize` (folder-size resolution with
  the sanitized-name fallback; the filesystem is a map from path to the folder's
  byte size, `none` meaning the COM `GetFolder` call raises `com_error`);
* `_print_info`     → `printInfo`     (report assembly; sizes are rationals, with
  decimal rounding modelled by `roundTo`).

`unusedmods.main` (Program B) and `modpacksize.main` (Program A) are embedded by
`programB_unusedModNames` and `programA`.
-/

/-- Python exceptions the scripts raise or catch. `keyError` models a dict-style
`KeyError` on a missing attribute; `comError` models `pywintypes.com_error` from
`GetFolder` on a missing folder, carrying the failing path. -/
inductive PyError where
  | keyError (key : String)
  | comError (path : String)
deriving DecidableEq, Repr

/-- One `td` cell of a parsed export document, in document order.
`parentType` is the parent element's `data-type` attribute (`none` when the
attribute is absent, so `td.parent["data-type"]` raises `KeyError`);
`cellType` is the cell's own `data-type` attribute (`none` when absent, so
`td["data-type"]` raises `KeyError`); `text` is `td.text`. -/
structure Cell where
  parentType : Option String
  cellType : Option String
  text : String
deriving DecidableEq, Repr

/-- Embedding of `_get_mod_names` (identical in both scripts):

    for td in soup.find_all("td"):
        if td.parent["data-type"] == "ModContainer":   # KeyError propagates
            try:
                if td["data-type"] == "DisplayName":
                    mod_names.append(td.text)
            except KeyError: pass

The outer attribute access is unguarded: a cell whose parent lacks the
`data-type` attribute aborts the extraction with `KeyError "data-type"`.
The inner access is wrapped in `try/except KeyError: pass`. -/
def getModNames : List Cell → Except PyError (List String)
  | [] => .ok []
  | td :: rest =>
    match td.parentType with
    | none => .error (.keyError "data-type")
    | some pt =>
      if pt = "ModContainer" then
        match td.cellType with
        | some ct =>
          if ct = "DisplayName" then
            match getModNames rest with
            | .ok ns => .ok (td.text :: ns)
            | .error e => .error e
          else getModNames rest
        | none => getModNames rest
      else getModNames rest

/-- The filesystem seen through `Scripting.FileSystemObject`: for a path, `some b`
is the recursive size in bytes of the folder there (`folder.Size`), and `none`
means `GetFolder` raises `com_error` (folder not found / invalid path). -/
def FileSystem : Type := String → Option ℚ

/-- Embedding of `_get_dir_size`: `folder.Size / (1024.0 ** 2)`, converting the
byte count to megabytes; `none` propagates the `com_error`. -/
def getDirSize (fs : FileSystem) (p : String) : Option ℚ :=
  (fs p).map (fun sizeBytes => sizeBytes / (1024 : ℚ) ^ 2)

/-- Windows path separator used by `os.path.join` in the scripts' target
environment. -/
def pathSep : String := "\\"

/-- `os.path.join(a, b)` for the relative components the scripts pass. -/
def pathJoin (a b : String) : String := a ++ pathSep ++ b

/-- The candidate folder for a mod:
`os.path.join(arma_root, "!Workshop", f"@{mod_name}")`. -/
def modPath (armaRoot modName : String) : String :=
  pathJoin (pathJoin armaRoot "!Workshop") ("@" ++ modName)

/-- `s.replace(old, new)` for one-character `old` and `new`: Python's
substring replacement coincides with a character-wise map in that case. -/
def replaceChar (old new : Char) (s : String) : String :=
  String.mk (s.data.map (fun c => if c = old then new else c))

/-- The fallback name sanitization:
`mod_name.replace(":", "-")` then `.replace("/", "-")`. -/
def sanitize (s : String) : String :=
  replaceChar '/' '-' (replaceChar ':' '-' s)

/-- One iteration of the size loop (`_get_mod_sizes` body / `modpacksize.main`
loop body): try the literal name; on `com_error` sanitize the name and retry
once; a `com_error` from the retry is uncaught and propagates. -/
def resolveModSize (fs : FileSystem) (armaRoot modName : String) : Except PyError ℚ :=
  match getDirSize fs (modPath armaRoot modName) with
  | some s => .ok s
  | none =>
    match getDirSize fs (modPath armaRoot (sanitize modName)) with
    | some s => .ok s
    | none => .error (.comError (modPath armaRoot (sanitize modName)))

/-- Embedding of `_get_mod_sizes(mod_names, arma_root)`: the loop over names in
order, appending each resolved size; an uncaught `com_error` aborts the whole
call (the sizes accumulated so far are discarded with the run). -/
def getModSizes (fs : FileSystem) : List String → String → Except PyError (List ℚ)
  | [], _ => .ok []
  | n :: rest, armaRoot =>
    match resolveModSize fs armaRoot n with
    | .error e => .error e
    | .ok s =>
      match getModSizes fs rest armaRoot with
      | .error e => .error e
      | .ok ss => .ok (s :: ss)

/-- `round(x, n)` on the exact rational value: scale by `10 ^ n`, round to the
nearest integer, scale back. -/
def roundTo (n : ℕ) (x : ℚ) : ℚ := ((round (x * 10 ^ n) : ℤ) : ℚ) / 10 ^ n

/-- The observable content of the rendered report: the table rows
(ordinal `i+1`, the displayed name, the size rounded for display) and the two
totals from the header line. -/
structure Report where
  rows : List (ℕ × String × ℚ)
  totalMB : ℚ
  totalGB : ℚ
deriving DecidableEq, Repr

/-- Embedding of `_print_info` (identical in both scripts):

    for i, (name, size) in enumerate(zip(mod_names, mod_sizes)):
        table.add_row(str(i+1), str(name), str(round(size, 3)))
    total_size_mb = round(sum(mod_sizes), 2)
    ... f"{total_size_mb} MB ({round(total_size_mb / 1024.0, 3)} GB)"
-/
def printInfo (modNames : List String) (modSizes : List ℚ) : Report :=
  { rows := (List.zip modNames modSizes).enum.map
      (fun p => (p.1 + 1, p.2.1, roundTo 3 p.2.2)),
    totalMB := roundTo 2 modSizes.sum,
    totalGB := roundTo 3 (roundTo 2 modSizes.sum / 1024) }

/-- Embedding of `modpacksize.main` after argument parsing: extract the names
from the one export document, resolve every size, render the report. Any
uncaught exception aborts the run. -/
def programA (fs : FileSystem) (doc : List Cell) (armaRoot : String) :
    Except PyError Report :=
  match getModNames doc with
  | .error e => .error e
  | .ok modNames =>
    match getModSizes fs modNames armaRoot with
    | .error e => .error e
    | .ok modSizes => .ok (printInfo modNames modSizes)

/-- The extension loop of `unusedmods.main`: extract each active export file in
order and concatenate the results; an extraction error aborts the run. -/
def extractAllNames : List (List Cell) → Except PyError (List String)
  | [] => .ok []
  | doc :: docs =>
    match getModNames doc with
    | .error e => .error e
    | .ok ns =>
      match extractAllNames docs with
      | .error e => .error e
      | .ok rest => .ok (ns ++ rest)

/-- `[mod for mod in all_mod_names if mod not in active_mod_names]`. -/
def unusedFilter (allModNames activeModNames : List String) : List String :=
  allModNames.filter (fun n => !(activeModNames.contains n))

/-- Embedding of `unusedmods.main` up to the unused-mod list:
`active_mod_names = list(set(...))` deduplicates the concatenated active names
(Python's set iteration order is unspecified, but the list is only ever used
for membership tests, which `dedup` preserves); the all-mods extraction is kept
ordered and un-deduplicated; the list comprehension filters it. -/
def programB_unusedModNames (activeDocs : List (List Cell)) (allDoc : List Cell) :
    Except PyError (List String) :=
  match extractAllNames activeDocs with
  | .error e => .error e
  | .ok activeAll =>
    match getModNames allDoc with
    | .error e => .error e
    | .ok allModNames => .ok (unusedFilter allModNames activeAll.dedup)

/-- Specification-side extraction (used to state the refinement claims): keep,
in document order, the text of exactly the cells whose parent's type tag is
`ModContainer` and whose own type tag is `DisplayName`. -/
def extractSpec (cells : List Cell) : List String :=
  cells.filterMap (fun c =>
    if c.parentType = some "ModContainer" then
      if c.cellType = some "DisplayName" then some c.text else none
    else none)

/-! ### Extraction lemmas -/

/-- On a document in which every cell's parent carries the `data-type`
attribute, the extraction loop succeeds and returns exactly the
specification-side stable projection `extractSpec`. -/
theorem getModNames_eq_extractSpec (cells : List Cell)
    (h : ∀ c ∈ cells, (Cell.parentType c).isSome) :
    getModNames cells = .ok (extractSpec cells) := by
  induction cells with
  | nil => rfl
  | cons td rest ih =>
    obtain ⟨pt, hpt⟩ := Option.isSome_iff_exists.mp (h td (by simp))
    have ihr := ih (fun c hc => h c (by simp [hc]))
    by_cases hmc : pt = "ModContainer"
    · cases hct : td.cellType with
      | none =>
        simp [getModNames, extractSpec, List.filterMap_cons, hpt, hmc, hct, ihr]
      | some ct =>
        by_cases hdn : ct = "DisplayName" <;>
          simp [getModNames, extractSpec, List.filterMap_cons, hpt, hmc, hct, hdn, ihr]
    · simp [getModNames, extractSpec, List.filterMap_cons, hpt, hmc, ihr]

/-- A cell whose parent lacks the `data-type` attribute makes the whole
extraction raise `KeyError "data-type")`, wherever it sits in the document. -/
theorem getModNames_error_of_missing (cells : List Cell)
    (h : ∃ c ∈ cells, Cell.parentType c = none) :
    getModNames cells = .error (PyError.keyError "data-type") := by
  induction cells with
  | nil => simp at h
  | cons td rest ih =>
    obtain ⟨c, hc, hnone⟩ := h
    rcases List.mem_cons.mp hc with rfl | hmem
    · simp [getModNames, hnone]
    · have ihr := ih ⟨c, hmem, hnone⟩
      cases hpt : td.parentType with
      | none => simp [getModNames, hpt]
      | some pt =>
        by_cases hmc : pt = "ModContainer"
        · cases hct : td.cellType with
          | none => simp [getModNames, hpt, hmc, hct, ihr]
          | some ct =>
            by_cases hdn : ct = "DisplayName" <;>
              simp [getModNames, hpt, hmc, hct, hdn, ihr]
        · simp [getModNames, hpt, hmc, ihr]

/-! ### Claim C2 -/

/-- C2: for every export document (each cell's parent bearing its type tag, as
the schema's data model prescribes), `extract` returns exactly the text of the
cells whose own type tag is `DisplayName` and whose immediate parent's type tag
is `ModContainer`, in document encounter order; cells under a non-ModContainer
parent are skipped, and a ModContainer child cell lacking a type tag is skipped
silently rather than raising. -/
theorem extract_matches_spec (cells : List Cell)
    (h : ∀ c ∈ cells, (Cell.parentType c).isSome) :
    getModNames cells = .ok (extractSpec cells) :=
  getModNames_eq_extractSpec cells h

/-- A document exercising all three skip/keep cases of the extraction. -/
def mixedDoc : List Cell :=
  [⟨some "OtherRow", some "DisplayName", "NotAMod"⟩,
   ⟨some "ModContainer", none, "no type tag"⟩,
   ⟨some "ModContainer", some "Size", "33 MB"⟩,
   ⟨some "ModContainer", some "DisplayName", "CBA_A3"⟩]

theorem extract_matches_spec_witness :
    (∀ c ∈ mixedDoc, (Cell.parentType c).isSome) ∧
    getModNames mixedDoc = .ok (extractSpec mixedDoc) ∧
    extractSpec mixedDoc = ["CBA_A3"] :=
  ⟨by decide, extract_matches_spec mixedDoc (by decide), rfl⟩

/-! ### Claim C6 -/

/-- C6: a document containing a cell whose immediate parent lacks the
`data-type` attribute makes `extract` fail with the structure error
(`KeyError "data-type"` from the unguarded parent-attribute access); the error
is not swallowed — the whole extraction returns it. -/
theorem extract_missing_parent_attr_fails (cells : List Cell)
    (h : ∃ c ∈ cells, Cell.parentType c = none) :
    getModNames cells = .error (PyError.keyError "data-type") :=
  getModNames_error_of_missing cells h

/-- A document whose second cell's parent has no `data-type` attribute. -/
def badParentDoc : List Cell :=
  [⟨some "ModContainer", some "DisplayName", "Alpha"⟩,
   ⟨none, some "DisplayName", "Broken"⟩]

theorem extract_missing_parent_attr_fails_witness :
    (∃ c ∈ badParentDoc, Cell.parentType c = none) ∧
    getModNames badParentDoc = .error (PyError.keyError "data-type") :=
  ⟨by decide, extract_missing_parent_attr_fails badParentDoc (by decide)⟩

/-! ### Claim C8 -/

/-- A document with no ModContainer parent anywhere, but whose one cell's
parent lacks the `data-type` attribute altogether. -/
def noContainerDoc : List Cell := [⟨none, some "DisplayName", "Orphan"⟩]

/-- C8 is refuted as stated: `noContainerDoc` contains zero ModContainer
elements (no cell's parent type tag is `ModContainer`), yet `extract` raises
the structure error instead of returning the empty list. -/
theorem extract_no_container_counterexample :
    noContainerDoc.all (fun c => !(c.parentType == some "ModContainer")) = true ∧
    getModNames noContainerDoc = .error (PyError.keyError "data-type") ∧
    getModNames noContainerDoc ≠ .ok [] :=
  ⟨rfl, rfl, fun hcontra => nomatch hcontra⟩

/-- C8 (amended): for every document with zero ModContainer elements in which
every cell's parent bears a type-tag attribute, `extract` returns the empty
sequence — no error, no names. -/
theorem extract_no_container_empty (cells : List Cell)
    (hwf : ∀ c ∈ cells, (Cell.parentType c).isSome)
    (hnc : ∀ c ∈ cells, Cell.parentType c ≠ some "ModContainer") :
    getModNames cells = .ok [] := by
  rw [getModNames_eq_extractSpec cells hwf]
  suffices hspec : extractSpec cells = [] by rw [hspec]
  rw [extractSpec, List.filterMap_eq_nil_iff]
  intro c hc
  simp [hnc c hc]

/-- A ModContainer-free document on which the extraction returns no names. -/
def plainDoc : List Cell :=
  [⟨some "HeaderRow", some "DisplayName", "title"⟩, ⟨some "FooterRow", none, "x"⟩]

theorem extract_no_container_empty_witness :
    (∀ c ∈ plainDoc, (Cell.parentType c).isSome) ∧
    (∀ c ∈ plainDoc, Cell.parentType c ≠ some "ModContainer") ∧
    getModNames plainDoc = .ok [] :=
  ⟨by decide, by decide, extract_no_container_empty plainDoc (by decide) (by decide)⟩

/-! ### Size-resolution lemmas -/

/-- A failed resolution of any listed name makes the whole size loop fail:
there is no per-mod partial-failure tolerance. -/
theorem getModSizes_error_of_mem (fs : FileSystem) (armaRoot : String)
    (names : List String) (n : String) (hn : n ∈ names) (e : PyError)
    (he : resolveModSize fs armaRoot n = .error e) :
    ∃ e2, getModSizes fs names armaRoot = .error e2 := by
  induction names with
  | nil => simp at hn
  | cons m rest ih =>
    rcases List.mem_cons.mp hn with rfl | hmem
    · exact ⟨e, by simp [getModSizes, he]⟩
    · cases hm : resolveModSize fs armaRoot m with
      | error e3 => exact ⟨e3, by simp [getModSizes, hm]⟩
      | ok s =>
        obtain ⟨e2, h2⟩ := ih hmem
        exact ⟨e2, by simp [getModSizes, hm, h2]⟩

/-- When every listed name resolves, the size loop succeeds and pairs the
`i`-th output size with the `i`-th input name. -/
theorem getModSizes_ok_of_all (fs : FileSystem) (armaRoot : String) (names : List String)
    (h : ∀ n ∈ names, ∃ s, resolveModSize fs armaRoot n = .ok s) :
    ∃ sizes, getModSizes fs names armaRoot = .ok sizes ∧
      sizes.length = names.length ∧
      ∀ i (hi : i < names.length) (hs : i < sizes.length),
        resolveModSize fs armaRoot (names.get ⟨i, hi⟩) = .ok (sizes.get ⟨i, hs⟩) := by
  induction names with
  | nil => exact ⟨[], rfl, rfl, fun i hi => absurd hi (Nat.not_lt_zero i)⟩
  | cons m rest ih =>
    obtain ⟨s, hs⟩ := h m (by simp)
    obtain ⟨sizes, h1, h2, h3⟩ := ih (fun n hn => h n (by simp [hn]))
    refine ⟨s :: sizes, by simp [getModSizes, hs, h1], by simp [h2], ?_⟩
    intro i hi hsl
    cases i with
    | zero => simpa using hs
    | succ j => simpa using h3 j (by simpa using hi) (by simpa using hsl)

/-- A successful size loop returns exactly one size per input name. -/
theorem getModSizes_ok_length (fs : FileSystem) (armaRoot : String) :
    ∀ (names : List String) (sizes : List ℚ),
      getModSizes fs names armaRoot = .ok sizes → sizes.length = names.length := by
  intro names
  induction names with
  | nil =>
    intro sizes h
    simp only [getModSizes] at h
    cases h
    rfl
  | cons m rest ih =>
    intro sizes h
    simp only [getModSizes] at h
    cases hm : resolveModSize fs armaRoot m with
    | error e => rw [hm] at h; cases h
    | ok s =>
      rw [hm] at h
      cases hr : getModSizes fs rest armaRoot with
      | error e => rw [hr] at h; cases h
      | ok ss =>
        rw [hr] at h
        cases h
        simp [ih ss hr]

/-! ### Claim C3 -/

/-- C3: when the primary query on `armaRoot\!Workshop\@modName` raises the
folder-not-found error, the resolver retries exactly once on the path built
from the sanitized name (every `:` and `/` replaced by `-`); if that single
fallback also fails the error propagates (the result is that `com_error`), and
it is fatal for the whole run — the size loop over any list containing the name
fails as a whole.  The final conjunct shows no third attempt exists: the
outcome depends on the filesystem only through the two candidate paths. -/
theorem resolve_fallback_retry_once (fs : FileSystem) (armaRoot modName : String)
    (h1 : fs (modPath armaRoot modName) = none) :
    resolveModSize fs armaRoot modName =
      ((getDirSize fs (modPath armaRoot (sanitize modName))).elim
        (Except.error (PyError.comError (modPath armaRoot (sanitize modName))))
        Except.ok) ∧
    (fs (modPath armaRoot (sanitize modName)) = none →
      resolveModSize fs armaRoot modName =
        .error (.comError (modPath armaRoot (sanitize modName))) ∧
      ∀ names, modName ∈ names →
        ∃ e, getModSizes fs names armaRoot = .error e) ∧
    (∀ fs2 : FileSystem,
      fs2 (modPath armaRoot modName) = fs (modPath armaRoot modName) →
      fs2 (modPath armaRoot (sanitize modName)) = fs (modPath armaRoot (sanitize modName)) →
      resolveModSize fs2 armaRoot modName = resolveModSize fs armaRoot modName) := by
  refine ⟨?_, fun h2 => ⟨?_, fun names hmem => ?_⟩, fun fs2 ha hb => ?_⟩
  · cases hd : fs (modPath armaRoot (sanitize modName)) with
    | none => simp [resolveModSize, getDirSize, h1, hd, Option.elim]
    | some s => simp [resolveModSize, getDirSize, h1, hd, Option.elim]
  · simp [resolveModSize, getDirSize, h1, h2]
  · exact getModSizes_error_of_mem fs armaRoot names modName hmem
      (PyError.comError (modPath armaRoot (sanitize modName)))
      (by simp [resolveModSize, getDirSize, h1, h2])
  · simp only [resolveModSize, getDirSize, ha, hb]

/-- The root directory used by the concrete examples. -/
def demoRoot : String := "C:\\Arma 3"

/-- A filesystem in which only the sanitized folder of `RHS: Escalation`
exists, holding exactly one mebibyte. -/
def demoFS : FileSystem :=
  fun p => if p = modPath demoRoot (sanitize "RHS: Escalation") then some 1048576 else none

theorem resolve_fallback_retry_once_witness :
    demoFS (modPath demoRoot "RHS: Escalation") = none ∧
    (resolveModSize demoFS demoRoot "RHS: Escalation" =
      ((getDirSize demoFS (modPath demoRoot (sanitize "RHS: Escalation"))).elim
        (Except.error (PyError.comError (modPath demoRoot (sanitize "RHS: Escalation"))))
        Except.ok) ∧
    (demoFS (modPath demoRoot (sanitize "RHS: Escalation")) = none →
      resolveModSize demoFS demoRoot "RHS: Escalation" =
        .error (.comError (modPath demoRoot (sanitize "RHS: Escalation"))) ∧
      ∀ names, "RHS: Escalation" ∈ names →
        ∃ e, getModSizes demoFS names demoRoot = .error e) ∧
    (∀ fs2 : FileSystem,
      fs2 (modPath demoRoot "RHS: Escalation") = demoFS (modPath demoRoot "RHS: Escalation") →
      fs2 (modPath demoRoot (sanitize "RHS: Escalation")) =
        demoFS (modPath demoRoot (sanitize "RHS: Escalation")) →
      resolveModSize fs2 demoRoot "RHS: Escalation" =
        resolveModSize demoFS demoRoot "RHS: Escalation")) :=
  ⟨by decide, resolve_fallback_retry_once demoFS demoRoot "RHS: Escalation" (by decide)⟩

/-! ### Claim C4 -/

/-- C4: whenever every input name has its folder — under the literal name or,
failing that, under the sanitized name — the size loop succeeds with exactly
one size per name, in input order: the `i`-th size is the resolution of the
`i`-th name.  No mod is skipped and no extra entry is produced. -/
theorem resolveSizes_length_order (fs : FileSystem) (armaRoot : String)
    (names : List String)
    (h : ∀ n ∈ names,
      (fs (modPath armaRoot n)).isSome ∨ (fs (modPath armaRoot (sanitize n))).isSome) :
    ∃ sizes, getModSizes fs names armaRoot = .ok sizes ∧
      sizes.length = names.length ∧
      ∀ i (hi : i < names.length) (hs : i < sizes.length),
        resolveModSize fs armaRoot (names.get ⟨i, hi⟩) = .ok (sizes.get ⟨i, hs⟩) := by
  apply getModSizes_ok_of_all
  intro n hn
  rcases h n hn with hp | hf
  · obtain ⟨b, hb⟩ := Option.isSome_iff_exists.mp hp
    exact ⟨b / 1024 ^ 2, by simp [resolveModSize, getDirSize, hb]⟩
  · obtain ⟨b, hb⟩ := Option.isSome_iff_exists.mp hf
    cases hp2 : fs (modPath armaRoot n) with
    | some s => exact ⟨s / 1024 ^ 2, by simp [resolveModSize, getDirSize, hp2]⟩
    | none => exact ⟨b / 1024 ^ 2, by simp [resolveModSize, getDirSize, hp2, hb]⟩

/-- A filesystem holding `@Alpha` literally and `RHS: Escalation` only under
its sanitized folder name. -/
def demoFS2 : FileSystem := fun p =>
  if p = modPath demoRoot "Alpha" then some 2097152
  else if p = modPath demoRoot (sanitize "RHS: Escalation") then some 1048576
  else none

theorem resolveSizes_length_order_witness :
    (∀ n ∈ ["Alpha", "RHS: Escalation"],
      (demoFS2 (modPath demoRoot n)).isSome ∨
      (demoFS2 (modPath demoRoot (sanitize n))).isSome) ∧
    (∃ sizes, getModSizes demoFS2 ["Alpha", "RHS: Escalation"] demoRoot = .ok sizes ∧
      sizes.length = (["Alpha", "RHS: Escalation"] : List String).length ∧
      ∀ i (hi : i < (["Alpha", "RHS: Escalation"] : List String).length)
        (hs : i < sizes.length),
        resolveModSize demoFS2 demoRoot ((["Alpha", "RHS: Escalation"] : List String).get ⟨i, hi⟩) =
          .ok (sizes.get ⟨i, hs⟩)) :=
  ⟨by decide, resolveSizes_length_order demoFS2 demoRoot ["Alpha", "RHS: Escalation"] (by decide)⟩

/-! ### Claim C5 -/

/-- The character list underlying a sanitized name: the two one-character
replacements of the source, as successive maps. -/
theorem sanitize_data (s : String) :
    (sanitize s).data =
      (s.data.map (fun c => if c = ':' then '-' else c)).map
        (fun c => if c = '/' then '-' else c) := rfl

/-- C5: the sanitization (every `:` replaced by `-`, then every `/` replaced
by `-`) is idempotent, and it changes no character other than `:` and `/`:
the result has the same length, and every position holding neither `:` nor `/`
is untouched. -/
theorem sanitize_idempotent_frame (s : String) :
    sanitize (sanitize s) = sanitize s ∧
    (sanitize s).data.length = s.data.length ∧
    ∀ i (hi : i < s.data.length) (hs : i < (sanitize s).data.length),
      s.data[i] ≠ ':' → s.data[i] ≠ '/' → (sanitize s).data[i] = s.data[i] := by
  refine ⟨?_, by simp [sanitize_data], ?_⟩
  · apply String.ext
    rw [sanitize_data (sanitize s), sanitize_data s]
    simp only [List.map_map]
    apply List.map_congr_left
    intro c _
    simp only [Function.comp]
    by_cases h1 : c = ':'
    · subst h1; rfl
    · by_cases h2 : c = '/'
      · subst h2; rfl
      · simp [h1, h2]
  · intro i hi hs h1 h2
    simp only [sanitize_data, List.getElem_map]
    simp [h1, h2]

theorem sanitize_idempotent_frame_witness :
    sanitize "RHS: a/b:c" = "RHS- a-b-c" ∧
    (sanitize (sanitize "RHS: a/b:c") = sanitize "RHS: a/b:c" ∧
    (sanitize "RHS: a/b:c").data.length = ("RHS: a/b:c" : String).data.length ∧
    ∀ i (hi : i < ("RHS: a/b:c" : String).data.length)
      (hs : i < (sanitize "RHS: a/b:c").data.length),
      ("RHS: a/b:c" : String).data[i] ≠ ':' → ("RHS: a/b:c" : String).data[i] ≠ '/' →
      (sanitize "RHS: a/b:c").data[i] = ("RHS: a/b:c" : String).data[i]) :=
  ⟨rfl, sanitize_idempotent_frame "RHS: a/b:c"⟩

/-! ### Claim C1 -/

/-- C1: the unused-mod list of Program B is the stable filter of the ordered
all-mods extraction by non-membership in the active union: whenever the active
extractions succeed with concatenation `activeAll` and the all-mods extraction
succeeds with `allModNames`, the computed list `u` is a sublist of
`allModNames` (original order, never re-sorted), contains no member of the
active set, and keeps every occurrence of every non-member — duplicates in the
all-mods sequence are each tested independently, not collapsed. -/
theorem unusedMods_stable_filter
    (activeDocs : List (List Cell)) (allDoc : List Cell)
    (activeAll allModNames u : List String)
    (hActive : extractAllNames activeDocs = .ok activeAll)
    (hAll : getModNames allDoc = .ok allModNames)
    (hU : programB_unusedModNames activeDocs allDoc = .ok u) :
    u.Sublist allModNames ∧
    (∀ n, n ∈ activeAll → n ∉ u) ∧
    (∀ n, n ∉ activeAll → u.count n = allModNames.count n) := by
  have hu : u = unusedFilter allModNames activeAll.dedup := by
    rw [programB_unusedModNames, hActive, hAll] at hU
    exact (Except.ok.inj hU).symm
  subst hu
  refine ⟨List.filter_sublist _, ?_, ?_⟩
  · intro n hn hmem
    have hcond := (List.mem_filter.mp hmem).2
    simp only [List.contains, List.elem_eq_mem, Bool.not_eq_true', decide_eq_false_iff_not,
      List.mem_dedup] at hcond
    exact hcond hn
  · intro n hn
    apply List.count_filter
    simp only [List.contains, List.elem_eq_mem, Bool.not_eq_true', decide_eq_false_iff_not,
      List.mem_dedup]
    exact hn

/-- An active-modpack export listing `Alpha` and `Beta`. -/
def sampleActiveDoc : List Cell :=
  [⟨some "ModContainer", some "DisplayName", "Alpha"⟩,
   ⟨some "ModContainer", some "DisplayName", "Beta"⟩]

/-- An all-mods export listing `Alpha`, `Beta`, `Gamma`, `Alpha` (with a
non-DisplayName cell between them). -/
def sampleAllDoc : List Cell :=
  [⟨some "ModContainer", some "DisplayName", "Alpha"⟩,
   ⟨some "ModContainer", some "DisplayName", "Beta"⟩,
   ⟨some "ModContainer", some "Size", "12 MB"⟩,
   ⟨some "ModContainer", some "DisplayName", "Gamma"⟩,
   ⟨some "ModContainer", some "DisplayName", "Alpha"⟩]

theorem unusedMods_stable_filter_witness :
    extractAllNames [sampleActiveDoc, sampleActiveDoc] = .ok ["Alpha", "Beta", "Alpha", "Beta"] ∧
    getModNames sampleAllDoc = .ok ["Alpha", "Beta", "Gamma", "Alpha"] ∧
    programB_unusedModNames [sampleActiveDoc, sampleActiveDoc] sampleAllDoc = .ok ["Gamma"] ∧
    ((["Gamma"] : List String).Sublist ["Alpha", "Beta", "Gamma", "Alpha"] ∧
     (∀ n, n ∈ (["Alpha", "Beta", "Alpha", "Beta"] : List String) → n ∉ (["Gamma"] : List String)) ∧
     (∀ n, n ∉ (["Alpha", "Beta", "Alpha", "Beta"] : List String) →
       (["Gamma"] : List String).count n = (["Alpha", "Beta", "Gamma", "Alpha"] : List String).count n)) :=
  ⟨rfl, rfl, rfl,
    unusedMods_stable_filter [sampleActiveDoc, sampleActiveDoc] sampleAllDoc
      ["Alpha", "Beta", "Alpha", "Beta"] ["Alpha", "Beta", "Gamma", "Alpha"] ["Gamma"]
      rfl rfl rfl⟩

/-! ### Claim C7 -/

/-- C7: on equal-length inputs the report assigns 1-based ordinals in input
order, displays each size rounded to 3 decimal places, shows `totalMB` as the
sum of the un-rounded input sizes rounded to 2 decimal places, and shows
`totalGB` as that rounded `totalMB` divided by 1024 and rounded to 3 decimal
places. -/
theorem report_rounding (modNames : List String) (modSizes : List ℚ)
    (h : modNames.length = modSizes.length) :
    (printInfo modNames modSizes).rows.length = modNames.length ∧
    (∀ i (hr : i < (printInfo modNames modSizes).rows.length)
       (hn : i < modNames.length) (hs : i < modSizes.length),
       (printInfo modNames modSizes).rows[i] =
         (i + 1, modNames[i], roundTo 3 (modSizes[i]))) ∧
    (printInfo modNames modSizes).totalMB = roundTo 2 modSizes.sum ∧
    (printInfo modNames modSizes).totalGB =
      roundTo 3 ((printInfo modNames modSizes).totalMB / 1024) := by
  refine ⟨?_, ?_, rfl, rfl⟩
  · simp [printInfo, h]
  · intro i hr hn hs
    simp [printInfo, List.getElem_map, List.getElem_enum, List.getElem_zip]

theorem report_rounding_witness :
    (["Alpha", "Beta"] : List String).length = ([10, 5/2] : List ℚ).length ∧
    ((printInfo ["Alpha", "Beta"] [10, 5/2]).rows.length =
      (["Alpha", "Beta"] : List String).length ∧
    (∀ i (hr : i < (printInfo ["Alpha", "Beta"] [10, 5/2]).rows.length)
       (hn : i < (["Alpha", "Beta"] : List String).length)
       (hs : i < ([10, 5/2] : List ℚ).length),
       (printInfo ["Alpha", "Beta"] [10, 5/2]).rows[i] =
         (i + 1, (["Alpha", "Beta"] : List String)[i],
           roundTo 3 (([10, 5/2] : List ℚ)[i]))) ∧
    (printInfo ["Alpha", "Beta"] [10, 5/2]).totalMB =
      roundTo 2 ([10, 5/2] : List ℚ).sum ∧
    (printInfo ["Alpha", "Beta"] [10, 5/2]).totalGB =
      roundTo 3 ((printInfo ["Alpha", "Beta"] [10, 5/2]).totalMB / 1024)) :=
  ⟨rfl, report_rounding ["Alpha", "Beta"] [10, 5/2] rfl⟩

/-! ### Claim C9 -/

/-- C9: when the equal-length precondition is violated the report builder does
not fail — it renders exactly `min` rows, the positional pairing stopping at
the shorter sequence, while `totalMB` still sums every element of the full
size sequence, including sizes that received no row. -/
theorem report_length_mismatch (modNames : List String) (modSizes : List ℚ) :
    (printInfo modNames modSizes).rows.length =
      min modNames.length modSizes.length ∧
    (printInfo modNames modSizes).totalMB = roundTo 2 modSizes.sum :=
  ⟨by simp [printInfo], rfl⟩

/-! ### Claim C10 -/

/-- C10: size resolution leaves the name sequence untouched (the embedding is
a pure function of it, mirroring the Python code's rebinding of the loop-local
variable only): the rows of a successful Program A report display exactly the
names extracted from the document, un-sanitized, even when a size was found
via the sanitized fallback path. -/
theorem report_shows_original_names (fs : FileSystem) (doc : List Cell)
    (armaRoot : String) (modNames : List String) (r : Report)
    (hNames : getModNames doc = .ok modNames)
    (hRun : programA fs doc armaRoot = .ok r) :
    r.rows.map (fun row => row.2.1) = modNames := by
  simp only [programA, hNames] at hRun
  cases hS : getModSizes fs modNames armaRoot with
  | error e => rw [hS] at hRun; simp at hRun
  | ok sizes =>
    rw [hS] at hRun
    obtain rfl := (Except.ok.inj hRun).symm
    have hlen : sizes.length = modNames.length :=
      getModSizes_ok_length fs armaRoot modNames sizes hS
    show ((List.zip modNames sizes).enum.map _).map _ = modNames
    rw [List.map_map]
    have hcomp : ((fun row => row.2.1) ∘
        (fun p : ℕ × String × ℚ => (p.1 + 1, p.2.1, roundTo 3 p.2.2)))
        = (Prod.fst ∘ (Prod.snd : ℕ × (String × ℚ) → String × ℚ)) := rfl
    rw [hcomp, ← List.map_map, List.enum_map_snd]
    exact List.map_fst_zip _ _ (le_of_eq hlen.symm)

/-- A one-mod export whose display name needs the sanitized fallback folder. -/
def fallbackDoc : List Cell :=
  [⟨some "ModContainer", some "DisplayName", "RHS: Escalation"⟩]

theorem report_shows_original_names_witness :
    getModNames fallbackDoc = .ok ["RHS: Escalation"] ∧
    programA demoFS fallbackDoc demoRoot =
      .ok (printInfo ["RHS: Escalation"] [(1048576 : ℚ) / 1024 ^ 2]) ∧
    (printInfo ["RHS: Escalation"] [(1048576 : ℚ) / 1024 ^ 2]).rows.map
      (fun row => row.2.1) = ["RHS: Escalation"] := by
  have h1 : demoFS (modPath demoRoot "RHS: Escalation") = none := by decide
  have h2 : demoFS (modPath demoRoot (sanitize "RHS: Escalation")) = some 1048576 := by
    decide
  have hsz : getModSizes demoFS ["RHS: Escalation"] demoRoot =
      .ok [(1048576 : ℚ) / 1024 ^ 2] := by
    simp [getModSizes, resolveModSize, getDirSize, h1, h2]
  have hnm : getModNames fallbackDoc = .ok ["RHS: Escalation"] := rfl
  have hrun : programA demoFS fallbackDoc demoRoot =
      .ok (printInfo ["RHS: Escalation"] [(1048576 : ℚ) / 1024 ^ 2]) := by
    simp [programA, hnm, hsz]
  exact ⟨hnm, hrun,
    report_shows_original_names demoFS fallbackDoc demoRoot
      ["RHS: Escalation"] (printInfo ["RHS: Escalation"] [(1048576 : ℚ) / 1024 ^ 2])
      hnm hrun⟩
